import Mathlib

/-!
Verification of the flip-book repository's backend (Express handlers in
`api/index.js`, second revision) and of the viewer geometry computations
(`Flipbook.jsx`, `part_000`, `part_001`).

The Postgres table `flipbook_links` is embedded as a list of rows; the SQL
statements that the handlers issue (`INSERT ... ON CONFLICT (filename) DO
UPDATE`, `SELECT ... WHERE filename = $1 LIMIT 1`,
`SELECT ... ORDER BY uploaded_at DESC LIMIT 50`) are embedded as list
functions.  Timestamps (`NOW()` / `Date.now()`) are naturals, the Vercel
blob store is an external collaborator modelled by a key-to-URL function,
and JavaScript numbers in the geometry code are modelled by rationals.
-/

/-- A row of the `flipbook_links` table: columns `filename` (the unique
identifier), `blob_url` and `uploaded_at`. -/
structure LinkRecord where
  filename : String
  blob_url : String
  uploaded_at : Nat
deriving Repr, DecidableEq

/-- The `flipbook_links` table, embedded as a list of rows. -/
abbrev Db := List LinkRecord

/-- Embeds `INSERT INTO flipbook_links (filename, blob_url, uploaded_at) VALUES
($1, $2, NOW()) ON CONFLICT (filename) DO UPDATE SET blob_url =
EXCLUDED.blob_url, uploaded_at = NOW();` — update the conflicting row in
place if one exists, otherwise insert a new row. -/
def sqlUpsert (db : Db) (fn url : String) (now : Nat) : Db :=
  match db with
  | [] => [⟨fn, url, now⟩]
  | r :: rs =>
    if r.filename == fn then ⟨fn, url, now⟩ :: rs
    else r :: sqlUpsert rs fn url now

/-- Embeds `SELECT blob_url, uploaded_at FROM flipbook_links WHERE filename = $1
LIMIT 1;` -/
def sqlSelectByFilename (db : Db) (fn : String) : List LinkRecord :=
  (db.filter (fun r => r.filename == fn)).take 1

/-- Insert a row into a list kept in decreasing `uploaded_at` order
(auxiliary for the embedding of `ORDER BY uploaded_at DESC`). -/
def insertDesc (r : LinkRecord) : List LinkRecord → List LinkRecord
  | [] => [r]
  | x :: xs =>
    if x.uploaded_at ≤ r.uploaded_at then r :: x :: xs
    else x :: insertDesc r xs

/-- Embeds `ORDER BY uploaded_at DESC` — sort the rows by decreasing
`uploaded_at`; ties are broken deterministically by the sort. -/
def orderByUploadedAtDesc (db : Db) : List LinkRecord :=
  db.foldr insertDesc []

/-- Embeds `SELECT filename, blob_url, uploaded_at FROM flipbook_links ORDER BY
uploaded_at DESC LIMIT 50;` -/
def sqlSelectHistory (db : Db) : List LinkRecord :=
  (orderByUploadedAtDesc db).take 50

-- Handler embeddings ------------------------------------------------------

/-- JSON body sent by a handler, together with its HTTP status.  Fields the
handler does not set are `none`. -/
structure ApiResponse where
  status : Nat
  success : Bool
  message : Option String
  filename : Option String
  publicFileUrl : Option String
  uploaded_at : Option Nat
  shareableUrl : Option String
deriving Repr, DecidableEq

/-- The file part of a `POST /api/upload-pdf` request as multer presents it:
client-declared original name, declared MIME type, and byte length. -/
structure UploadRequest where
  originalname : String
  mimetype : String
  size : Nat
deriving Repr, DecidableEq

/-- Server-side state touched by the upload path: the `flipbook_links`
table and the keys written to the Vercel blob store. -/
structure ServerState where
  db : Db
  blobKeys : List String
deriving Repr, DecidableEq

/-- Outcome of multer's per-file admission checks, configured with
`fileFilter` (reject MIME types other than `application/pdf`) and
`limits.fileSize` (50 MB).  multer runs both before the route handler body,
so a rejected file causes no storage or registry I/O.  The `fileFilter`
fires when the file part is opened, hence before the size limit; the size
limit truncates (and errors) only once the stream exceeds the configured
byte count, so a file of exactly the limit passes. -/
inductive MulterOutcome where
  | accepted
  | rejectedType
  | rejectedSize
deriving Repr, DecidableEq

/-- The admission decision for one file under the configuration at
`api/index.js` lines 178-189. -/
def multerCheck (mimetype : String) (size : Nat) : MulterOutcome :=
  if mimetype ≠ "application/pdf" then .rejectedType
  else if size > 50 * 1024 * 1024 then .rejectedSize
  else .accepted

/-- One step of `originalName.replace(/[^a-zA-Z0-9]/g, '-')`: a character
outside `[a-zA-Z0-9]` is replaced by a hyphen. -/
def sanitizeChar (c : Char) : Char :=
  if c.isAlphanum then c else '-'

/-- Embeds `originalName.replace(/[^a-zA-Z0-9]/g, '-').slice(0, 50)`. -/
def safeName (originalName : String) : String :=
  String.mk ((originalName.toList.map sanitizeChar).take 50)

/-- Index of the last `'.'` in a character list, if any. -/
def lastDotFrom : List Char → Option Nat
  | [] => none
  | c :: cs =>
    match lastDotFrom cs with
    | some i => some (i + 1)
    | none => if c = '.' then some 0 else none

/-- Embeds `path.parse(s).name`: the string up to the last dot; a name whose only
dot is the leading character (a dotfile) or that has no dot is returned
whole. -/
def pathParseName (s : String) : String :=
  match lastDotFrom s.toList with
  | none => s
  | some 0 => s
  | some i => String.mk (s.toList.take i)

/-- Embeds `path.extname(s)`: the suffix from the last dot on; empty for a dotless
name or a dotfile. -/
def pathExtname (s : String) : String :=
  match lastDotFrom s.toList with
  | none => ""
  | some 0 => ""
  | some i => String.mk (s.toList.drop i)

/-- The identifier derived at `api/index.js` lines 227-230:
`` `${safeName}-${Date.now()}${extension}` ``. -/
def derivedFilename (originalname : String) (now : Nat) : String :=
  safeName (pathParseName originalname) ++ "-" ++ toString now
    ++ pathExtname originalname

/-- Default of the `FRONTEND_URL` environment variable at line 192. -/
def FRONTEND_BASE_URL : String := "https://flip-book-frontend.vercel.app"

/-- Embeds `POST /api/upload-pdf` (lines 213-265): multer admission, filename
derivation, blob-store `put` (the collaborator `putUrl` maps the key to the
public URL), the upsert into `flipbook_links`, and the JSON response.  The
blob store and the database are modelled as reachable on this path. -/
def uploadPdf (putUrl : String → String) (req : UploadRequest) (now : Nat)
    (st : ServerState) : ServerState × ApiResponse :=
  match multerCheck req.mimetype req.size with
  | .rejectedType =>
    (st, ⟨400, false, some "Only PDF files are allowed!", none, none, none, none⟩)
  | .rejectedSize =>
    (st, ⟨400, false, some "File too large", none, none, none, none⟩)
  | .accepted =>
    let filename := derivedFilename req.originalname now
    let url := putUrl filename
    ({ db := sqlUpsert st.db filename url now,
       blobKeys := st.blobKeys ++ [filename] },
     ⟨200, true, some "File uploaded and link saved successfully.",
      some filename, some url, none,
      some (FRONTEND_BASE_URL ++ "/?file=" ++ filename)⟩)

/-- Result of awaiting an `sql` query: rows, or a thrown connectivity /
constraint error (caught by the handlers' `catch` blocks). -/
inductive SqlResult (α : Type) where
  | rows (val : α)
  | dbError
deriving Repr, DecidableEq

/-- The query a reachable registry gives to the lookup handler. -/
def reachableQuery (db : Db) : String → SqlResult (List LinkRecord) :=
  fun fn => SqlResult.rows (sqlSelectByFilename db fn)

/-- Embeds `GET /api/get-pdf-url` (lines 271-301): 400 when the `filename` query
parameter is missing, 500 when the `SELECT` throws, 404 when it returns no
row, otherwise 200 with the row's `blob_url` and `uploaded_at`. -/
def getPdfUrl (query : String → SqlResult (List LinkRecord))
    (filename : Option String) : ApiResponse :=
  match filename with
  | none => ⟨400, false, some "Missing filename query parameter.", none, none, none, none⟩
  | some fn =>
    match query fn with
    | .dbError =>
      ⟨500, false, some "Internal server error during database lookup.", none, none, none, none⟩
    | .rows [] =>
      ⟨404, false, some ("File not found for ID: " ++ fn), none, none, none, none⟩
    | .rows (r :: _) =>
      ⟨200, true, none, some fn, some r.blob_url, some r.uploaded_at, none⟩

/-- An item of the `history` array returned by `GET /api/get-history`;
`pages` is hard-coded to 0 server-side. -/
structure HistoryEntry where
  filename : String
  blob_url : String
  uploaded_at : Nat
  pages : Nat
deriving Repr, DecidableEq

/-- Embeds `GET /api/get-history` (lines 307-336) on a reachable registry: the
`ORDER BY uploaded_at DESC LIMIT 50` query mapped to response items. -/
def getHistory (db : Db) : List HistoryEntry :=
  (sqlSelectHistory db).map (fun row => ⟨row.filename, row.blob_url, row.uploaded_at, 0⟩)

/-- Run a sequence of upload requests (each with its arrival time) against
the server, threading the state. -/
def runUploads (putUrl : String → String) (ops : List (UploadRequest × Nat))
    (st : ServerState) : ServerState :=
  ops.foldl (fun s op => (uploadPdf putUrl op.1 op.2 s).1) st

/-- The identifiers a sequence of upload requests can introduce. -/
def uploadedIds (ops : List (UploadRequest × Nat)) : List String :=
  ops.map (fun op => derivedFilename op.1.originalname op.2)


-- Viewer geometry embeddings ---------------------------------------------

namespace Part000

/-- Embeds `updateDimensions` from `part_000` lines 43-57: maximize the
vertical space (`height = vh * 0.98`, `width = height * 0.707`), fall back
to the width constraint when `width > vw * 0.98`, and floor both.  No
minimum clamps are applied by this component. -/
def updateDimensions (innerWidth innerHeight : ℚ) : Int × Int :=
  let aspectRatio : ℚ := 707 / 1000
  let height := innerHeight * (98 / 100)
  let width := height * aspectRatio
  let wh :=
    if width > innerWidth * (98 / 100) then
      (innerWidth * (98 / 100), innerWidth * (98 / 100) / aspectRatio)
    else (width, height)
  (⌊wh.1⌋, ⌊wh.2⌋)

end Part000

namespace FlipbookJsx

/-- Embeds `calculateDimensions` from `Flipbook.jsx` lines 89-109: cap the
width at `min(innerWidth * 0.9, 800)`, derive `height = width / 0.707`,
fall back to the height constraint when `height > innerHeight * 0.8`,
clamp to the 400/500 minimums, and floor both. -/
def calculateDimensions (innerWidth innerHeight : ℚ) : Int × Int :=
  let viewportWidth := innerWidth * (9 / 10)
  let viewportHeight := innerHeight * (8 / 10)
  let portraitRatio : ℚ := 707 / 1000
  let pageWidth := min viewportWidth 800
  let pageHeight := pageWidth / portraitRatio
  let wh :=
    if pageHeight > viewportHeight then (viewportHeight * portraitRatio, viewportHeight)
    else (pageWidth, pageHeight)
  let pageWidth2 := if wh.1 < 400 then (400 : ℚ) else wh.1
  let pageHeight2 := if wh.2 < 500 then (500 : ℚ) else wh.2
  (⌊pageWidth2⌋, ⌊pageHeight2⌋)

end FlipbookJsx

namespace Part001

/-- The IEEE-double value of `1 / Math.SQRT2` computed at `part_001` line
245, as an exact rational. -/
def aspectRatioFullscreen : ℚ := 1592262918131443 / 2251799813685248

/-- Embeds `calculateDimensions` from `part_001` lines 235-309, with its
three branches: fullscreen (height-first at 0.95/0.9 margins, A4 ratio
`1 / Math.SQRT2`, no minimum clamps), mobile (width capped at
`min(vw * 0.92, 500)`, height constraint at `vh * 0.6`, minimums 280/396)
and desktop (width capped at `min(vw * 0.85, 800)`, height constraint at
`vh * 0.7`, minimums 400/560). -/
def calculateDimensions (isFullscreen isMobile : Bool) (innerWidth innerHeight : ℚ) :
    Int × Int :=
  if isFullscreen then
    let availableWidth := innerWidth * (95 / 100)
    let availableHeight := innerHeight * (9 / 10)
    let width := availableHeight * aspectRatioFullscreen
    let height := availableHeight
    let wh :=
      if width > availableWidth then (availableWidth, availableWidth / aspectRatioFullscreen)
      else (width, height)
    (⌊wh.1⌋, ⌊wh.2⌋)
  else if isMobile then
    let safeWidth := innerWidth * (92 / 100)
    let safeHeight := innerHeight * (6 / 10)
    let portraitRatio : ℚ := 707 / 1000
    let width := min safeWidth 500
    let height := width / portraitRatio
    let wh :=
      if height > safeHeight then (safeHeight * portraitRatio, safeHeight)
      else (width, height)
    let width2 := if wh.1 < 280 then (280 : ℚ) else wh.1
    let height2 := if wh.2 < 396 then (396 : ℚ) else wh.2
    (⌊width2⌋, ⌊height2⌋)
  else
    let viewportWidthDesktop := innerWidth * (85 / 100)
    let viewportHeightDesktop := innerHeight * (7 / 10)
    let portraitRatio : ℚ := 707 / 1000
    let width := min viewportWidthDesktop 800
    let height := width / portraitRatio
    let wh :=
      if height > viewportHeightDesktop then (viewportHeightDesktop * portraitRatio, viewportHeightDesktop)
      else (width, height)
    let width2 := if wh.1 < 400 then (400 : ℚ) else wh.1
    let height2 := if wh.2 < 560 then (560 : ℚ) else wh.2
    (⌊width2⌋, ⌊height2⌋)

end Part001

/-- Modelled from the spec sentence for claim C8 with minimum clamps, as
the claim states it: `height = H * marginFactor`, `width = height * r`; if
`width` exceeds `W * marginFactor`, recompute `width = W * marginFactor`,
`height = width / r`; clamp both to the given minimums; floor to
integers. -/
def specGeometryHeightFirstClamped (mfW mfH r minW minH W H : ℚ) : Int × Int :=
  let height := H * mfH
  let width := height * r
  let wh := if width > W * mfW then (W * mfW, W * mfW / r) else (width, height)
  let w := if wh.1 < minW then minW else wh.1
  let h := if wh.2 < minH then minH else wh.2
  (⌊w⌋, ⌊h⌋)

/-- Stated from the amended claim C8: the height-first formula without
minimum clamps, as the fullscreen components implement it. -/
def specGeometryHeightFirst (mfW mfH r W H : ℚ) : Int × Int :=
  let height := H * mfH
  let width := height * r
  let wh := if width > W * mfW then (W * mfW, W * mfW / r) else (width, height)
  (⌊wh.1⌋, ⌊wh.2⌋)

/-- Stated from the amended claim C8: the width-first formula of the
windowed components, with a maximum width cap and minimum clamps. -/
def specGeometryWidthFirstCapped (mfW mfH r cap minW minH W H : ℚ) : Int × Int :=
  let width := min (W * mfW) cap
  let height := width / r
  let wh := if height > H * mfH then ((H * mfH) * r, H * mfH) else (width, height)
  let w := if wh.1 < minW then minW else wh.1
  let h := if wh.2 < minH then minH else wh.2
  (⌊w⌋, ⌊h⌋)


-- Basic registry lemmas --------------------------------------------------

theorem sqlSelect_sqlUpsert_self (db : Db) (fn url : String) (now : Nat) :
    sqlSelectByFilename (sqlUpsert db fn url now) fn = [⟨fn, url, now⟩] := by
  induction db with
  | nil => simp [sqlUpsert, sqlSelectByFilename]
  | cons r rs ih =>
    by_cases h : r.filename == fn
    · simp [sqlUpsert, h, sqlSelectByFilename]
    · simp only [sqlUpsert, h, if_neg]
      simpa [sqlSelectByFilename, List.filter_cons, h] using ih

theorem length_sqlUpsert_of_mem (db : Db) (fn url : String) (now : Nat)
    (h : fn ∈ db.map (·.filename)) :
    (sqlUpsert db fn url now).length = db.length := by
  induction db with
  | nil => simp at h
  | cons r rs ih =>
    simp only [List.map_cons, List.mem_cons] at h
    by_cases hr : r.filename == fn
    · simp [sqlUpsert, hr]
    · have hfn : fn ∈ rs.map (·.filename) := by
        rcases h with h | h
        · exact absurd (beq_iff_eq.mpr h.symm) hr
        · exact h
      simp [sqlUpsert, hr, ih hfn]

theorem countP_sqlUpsert_of_mem (db : Db) (fn url : String) (now : Nat)
    (h : fn ∈ db.map (·.filename)) :
    (sqlUpsert db fn url now).countP (fun r => r.filename == fn) =
      db.countP (fun r => r.filename == fn) := by
  induction db with
  | nil => simp at h
  | cons r rs ih =>
    simp only [List.map_cons, List.mem_cons] at h
    by_cases hr : r.filename == fn
    · simp [sqlUpsert, hr, List.countP_cons]
    · have hfn : fn ∈ rs.map (·.filename) := by
        rcases h with h | h
        · exact absurd (beq_iff_eq.mpr h.symm) hr
        · exact h
      simp [sqlUpsert, hr, List.countP_cons, ih hfn]

theorem mem_filename_sqlUpsert (db : Db) (fn url fn' : String) (now : Nat)
    (h : fn' ∈ (sqlUpsert db fn url now).map (·.filename)) :
    fn' ∈ db.map (·.filename) ∨ fn' = fn := by
  induction db with
  | nil =>
    simp only [sqlUpsert, List.map_cons, List.map_nil, List.mem_singleton] at h
    exact Or.inr h
  | cons r rs ih =>
    by_cases hr : r.filename == fn
    · rw [show sqlUpsert (r :: rs) fn url now = ⟨fn, url, now⟩ :: rs from by
        simp [sqlUpsert, hr]] at h
      simp only [List.map_cons, List.mem_cons] at h
      rcases h with h | h
      · exact Or.inr h
      · exact Or.inl (List.mem_cons.mpr (Or.inr h))
    · rw [show sqlUpsert (r :: rs) fn url now = r :: sqlUpsert rs fn url now from by
        simp [sqlUpsert, hr]] at h
      simp only [List.map_cons, List.mem_cons] at h
      rcases h with h | h
      · exact Or.inl (List.mem_cons.mpr (Or.inl h))
      · rcases ih h with h' | h'
        · exact Or.inl (List.mem_cons.mpr (Or.inr h'))
        · exact Or.inr h'

theorem sqlSelect_eq_nil_of_not_mem (db : Db) (fn : String)
    (h : fn ∉ db.map (·.filename)) :
    sqlSelectByFilename db fn = [] := by
  have hfilter : db.filter (fun r => r.filename == fn) = [] := by
    rw [List.filter_eq_nil_iff]
    intro r hr hbeq
    exact h (List.mem_map.mpr ⟨r, hr, beq_iff_eq.mp hbeq⟩)
  simp [sqlSelectByFilename, hfilter]

-- History ordering lemmas -------------------------------------------------

theorem mem_insertDesc (r x : LinkRecord) (l : List LinkRecord)
    (h : x ∈ insertDesc r l) : x = r ∨ x ∈ l := by
  induction l with
  | nil => simpa [insertDesc] using h
  | cons y ys ih =>
    by_cases hy : y.uploaded_at ≤ r.uploaded_at
    · simp only [insertDesc, if_pos hy, List.mem_cons] at h
      rcases h with h | h
      · exact Or.inl h
      · exact Or.inr (List.mem_cons.mpr h)
    · simp only [insertDesc, if_neg hy, List.mem_cons] at h
      rcases h with h | h
      · exact Or.inr (List.mem_cons.mpr (Or.inl h))
      · rcases ih h with h' | h'
        · exact Or.inl h'
        · exact Or.inr (List.mem_cons.mpr (Or.inr h'))

theorem pairwise_insertDesc (r : LinkRecord) (l : List LinkRecord)
    (h : l.Pairwise (fun a b => b.uploaded_at ≤ a.uploaded_at)) :
    (insertDesc r l).Pairwise (fun a b => b.uploaded_at ≤ a.uploaded_at) := by
  induction l with
  | nil => simp [insertDesc]
  | cons y ys ih =>
    rcases List.pairwise_cons.mp h with ⟨hy, hys⟩
    by_cases hcmp : y.uploaded_at ≤ r.uploaded_at
    · simp only [insertDesc, if_pos hcmp]
      refine List.pairwise_cons.mpr ⟨?_, h⟩
      intro b hb
      rcases List.mem_cons.mp hb with hb | hb
      · exact hb ▸ hcmp
      · exact le_trans (hy b hb) hcmp
    · simp only [insertDesc, if_neg hcmp]
      refine List.pairwise_cons.mpr ⟨?_, ih hys⟩
      intro b hb
      rcases mem_insertDesc r b ys hb with hb | hb
      · exact hb ▸ le_of_lt (lt_of_not_le hcmp)
      · exact hy b hb

theorem pairwise_orderByUploadedAtDesc (db : Db) :
    (orderByUploadedAtDesc db).Pairwise (fun a b => b.uploaded_at ≤ a.uploaded_at) := by
  induction db with
  | nil => simp [orderByUploadedAtDesc]
  | cons r rs ih => exact pairwise_insertDesc r _ ih

-- Upload bookkeeping lemmas -----------------------------------------------

theorem not_mem_filenames_uploadPdf (putUrl : String → String) (req : UploadRequest)
    (now : Nat) (st : ServerState) (fn : String)
    (hst : fn ∉ st.db.map (·.filename))
    (hne : fn ≠ derivedFilename req.originalname now) :
    fn ∉ (uploadPdf putUrl req now st).1.db.map (·.filename) := by
  intro hmem
  unfold uploadPdf at hmem
  cases hc : multerCheck req.mimetype req.size with
  | accepted =>
    rw [hc] at hmem
    dsimp only at hmem
    rcases mem_filename_sqlUpsert _ _ _ _ _ hmem with h | h
    · exact hst h
    · exact hne h
  | rejectedType =>
    rw [hc] at hmem
    exact hst hmem
  | rejectedSize =>
    rw [hc] at hmem
    exact hst hmem

theorem not_mem_filenames_runUploads (putUrl : String → String)
    (ops : List (UploadRequest × Nat)) (fn : String) (st : ServerState)
    (hst : fn ∉ st.db.map (·.filename)) (h : fn ∉ uploadedIds ops) :
    fn ∉ (runUploads putUrl ops st).db.map (·.filename) := by
  induction ops generalizing st with
  | nil => exact hst
  | cons op ops ih =>
    simp only [uploadedIds, List.map_cons, List.mem_cons, not_or] at h
    obtain ⟨hne, hrest⟩ := h
    exact ih (uploadPdf putUrl op.1 op.2 st).1
      (not_mem_filenames_uploadPdf putUrl op.1 op.2 st fn hst hne) hrest

-- Geometry helper ----------------------------------------------------------

theorem le_floor_clampMin (n : ℤ) (c x : ℚ) (h : (n : ℚ) ≤ c) :
    n ≤ ⌊if x < c then c else x⌋ := by
  rcases lt_or_le x c with hx | hx
  · rw [if_pos hx]
    exact Int.le_floor.mpr h
  · rw [if_neg (not_lt.mpr hx)]
    exact Int.le_floor.mpr (le_trans h hx)

-- Claim theorems -----------------------------------------------------------

/-- C1: for every valid PDF upload under the size ceiling, resolving the
returned identifier through the lookup handler on the post-upload registry
succeeds (status 200) and yields exactly the `storageUrl` the upload
returned. -/
theorem upload_then_resolve_roundtrip
    (putUrl : String → String) (req : UploadRequest) (now : Nat) (st : ServerState)
    (hmime : req.mimetype = "application/pdf")
    (hsize : req.size ≤ 50 * 1024 * 1024) :
    (uploadPdf putUrl req now st).2.success = true ∧
    (getPdfUrl (reachableQuery (uploadPdf putUrl req now st).1.db)
        (uploadPdf putUrl req now st).2.filename).status = 200 ∧
    (getPdfUrl (reachableQuery (uploadPdf putUrl req now st).1.db)
        (uploadPdf putUrl req now st).2.filename).publicFileUrl =
      (uploadPdf putUrl req now st).2.publicFileUrl := by
  have hacc : multerCheck req.mimetype req.size = .accepted := by
    simp [multerCheck, hmime, Nat.not_lt.mpr hsize]
  have hu : uploadPdf putUrl req now st =
      ({ db := sqlUpsert st.db (derivedFilename req.originalname now)
            (putUrl (derivedFilename req.originalname now)) now,
         blobKeys := st.blobKeys ++ [derivedFilename req.originalname now] },
       ⟨200, true, some "File uploaded and link saved successfully.",
        some (derivedFilename req.originalname now),
        some (putUrl (derivedFilename req.originalname now)), none,
        some (FRONTEND_BASE_URL ++ "/?file=" ++ derivedFilename req.originalname now)⟩) := by
    unfold uploadPdf
    rw [hacc]
  rw [hu]
  refine ⟨rfl, ?_, ?_⟩ <;>
    simp [getPdfUrl, reachableQuery, sqlSelect_sqlUpsert_self]

/-- C1 witness at a concrete 2 kB PDF upload on an empty registry. -/
theorem upload_then_resolve_roundtrip_witness :
    (("application/pdf" : String) = "application/pdf") ∧ (2048 ≤ 50 * 1024 * 1024) ∧
    ((uploadPdf (fun k => String.append "https://blob.example/" k)
        ⟨"report.pdf", "application/pdf", 2048⟩ 1700000000000 ⟨[], []⟩).2.success = true ∧
     (getPdfUrl (reachableQuery (uploadPdf (fun k => String.append "https://blob.example/" k)
          ⟨"report.pdf", "application/pdf", 2048⟩ 1700000000000 ⟨[], []⟩).1.db)
        (uploadPdf (fun k => String.append "https://blob.example/" k)
          ⟨"report.pdf", "application/pdf", 2048⟩ 1700000000000 ⟨[], []⟩).2.filename).status = 200 ∧
     (getPdfUrl (reachableQuery (uploadPdf (fun k => String.append "https://blob.example/" k)
          ⟨"report.pdf", "application/pdf", 2048⟩ 1700000000000 ⟨[], []⟩).1.db)
        (uploadPdf (fun k => String.append "https://blob.example/" k)
          ⟨"report.pdf", "application/pdf", 2048⟩ 1700000000000 ⟨[], []⟩).2.filename).publicFileUrl =
       (uploadPdf (fun k => String.append "https://blob.example/" k)
          ⟨"report.pdf", "application/pdf", 2048⟩ 1700000000000 ⟨[], []⟩).2.publicFileUrl) :=
  ⟨rfl, by decide,
   upload_then_resolve_roundtrip (fun k => String.append "https://blob.example/" k)
     ⟨"report.pdf", "application/pdf", 2048⟩ 1700000000000 ⟨[], []⟩ rfl (by decide)⟩

/-- C2: upserting an identifier already present in the registry updates the
existing record in place: the row count and the number of rows carrying
that identifier are unchanged (no duplicate), and a subsequent lookup of
the identifier sees the new `blob_url` with `uploaded_at` refreshed to
`now`. -/
theorem upsert_overwrites_in_place (db : Db) (fn url : String) (now : Nat)
    (h : fn ∈ db.map (·.filename)) :
    (sqlUpsert db fn url now).length = db.length ∧
    (sqlUpsert db fn url now).countP (fun r => r.filename == fn) =
      db.countP (fun r => r.filename == fn) ∧
    sqlSelectByFilename (sqlUpsert db fn url now) fn = [⟨fn, url, now⟩] :=
  ⟨length_sqlUpsert_of_mem db fn url now h,
   countP_sqlUpsert_of_mem db fn url now h,
   sqlSelect_sqlUpsert_self db fn url now⟩

/-- C2 witness on a one-row registry: re-uploading `a-1.pdf` keeps one row
and the lookup sees the new URL and timestamp. -/
theorem upsert_overwrites_in_place_witness :
    ("a-1.pdf" ∈ ([⟨"a-1.pdf", "https://blob.example/old", 5⟩] : Db).map (·.filename)) ∧
    ((sqlUpsert [⟨"a-1.pdf", "https://blob.example/old", 5⟩] "a-1.pdf" "https://blob.example/new" 9).length =
        ([⟨"a-1.pdf", "https://blob.example/old", 5⟩] : Db).length ∧
     (sqlUpsert [⟨"a-1.pdf", "https://blob.example/old", 5⟩] "a-1.pdf" "https://blob.example/new" 9).countP
        (fun r => r.filename == "a-1.pdf") =
       ([⟨"a-1.pdf", "https://blob.example/old", 5⟩] : Db).countP (fun r => r.filename == "a-1.pdf") ∧
     sqlSelectByFilename
        (sqlUpsert [⟨"a-1.pdf", "https://blob.example/old", 5⟩] "a-1.pdf" "https://blob.example/new" 9)
        "a-1.pdf" = [⟨"a-1.pdf", "https://blob.example/new", 9⟩]) :=
  ⟨by decide,
   upsert_overwrites_in_place [⟨"a-1.pdf", "https://blob.example/old", 5⟩]
     "a-1.pdf" "https://blob.example/new" 9 (by decide)⟩

/-- C3: an identifier never produced by any upload resolves, on a reachable
registry, to the distinguishable 404 outcome with its message — never the
500 outcome; and the 500 outcome occurs exactly when the registry query
fails. -/
theorem resolve_unknown_is_notFound
    (putUrl : String → String) (ops : List (UploadRequest × Nat)) (fn : String)
    (q : String → SqlResult (List LinkRecord))
    (h : fn ∉ uploadedIds ops) :
    (getPdfUrl (reachableQuery (runUploads putUrl ops ⟨[], []⟩).db) (some fn)).status = 404 ∧
    (getPdfUrl (reachableQuery (runUploads putUrl ops ⟨[], []⟩).db) (some fn)).message =
      some ("File not found for ID: " ++ fn) ∧
    ((getPdfUrl q (some fn)).status = 500 ↔ q fn = SqlResult.dbError) := by
  have hdb : fn ∉ (runUploads putUrl ops ⟨[], []⟩).db.map (·.filename) :=
    not_mem_filenames_runUploads putUrl ops fn ⟨[], []⟩ (by simp) h
  have hsel := sqlSelect_eq_nil_of_not_mem _ _ hdb
  refine ⟨?_, ?_, ?_⟩
  · simp [getPdfUrl, reachableQuery, hsel]
  · simp [getPdfUrl, reachableQuery, hsel]
  · cases hq : q fn with
    | dbError => simp [getPdfUrl, hq]
    | rows rs =>
      cases rs with
      | nil => simp [getPdfUrl, hq]
      | cons r rest => simp [getPdfUrl, hq]

/-- C3 witness: after uploading `report.pdf`, looking up an identifier that
was never uploaded gives 404 with its message, and a failing query is the
only source of 500. -/
theorem resolve_unknown_is_notFound_witness :
    ("missing.pdf" ∉ uploadedIds [(⟨"report.pdf", "application/pdf", 2048⟩, 7)]) ∧
    ((getPdfUrl (reachableQuery (runUploads (fun k => String.append "https://blob.example/" k)
          [(⟨"report.pdf", "application/pdf", 2048⟩, 7)] ⟨[], []⟩).db) (some "missing.pdf")).status = 404 ∧
     (getPdfUrl (reachableQuery (runUploads (fun k => String.append "https://blob.example/" k)
          [(⟨"report.pdf", "application/pdf", 2048⟩, 7)] ⟨[], []⟩).db) (some "missing.pdf")).message =
       some ("File not found for ID: " ++ "missing.pdf") ∧
     ((getPdfUrl (fun _ => SqlResult.dbError) (some "missing.pdf")).status = 500 ↔
       (fun _ => (SqlResult.dbError : SqlResult (List LinkRecord))) "missing.pdf" = SqlResult.dbError)) :=
  ⟨by decide,
   resolve_unknown_is_notFound (fun k => String.append "https://blob.example/" k)
     [(⟨"report.pdf", "application/pdf", 2048⟩, 7)] "missing.pdf"
     (fun _ => SqlResult.dbError) (by decide)⟩

/-- C4: a request whose declared MIME type is not `application/pdf` is
rejected with the fileFilter error, and the whole server state — the
registry and the set of blob keys — is left unchanged, so no blob-store or
registry write happens. -/
theorem nonPdf_rejected_no_side_effects (putUrl : String → String)
    (req : UploadRequest) (now : Nat) (st : ServerState)
    (h : req.mimetype ≠ "application/pdf") :
    uploadPdf putUrl req now st =
      (st, ⟨400, false, some "Only PDF files are allowed!", none, none, none, none⟩) := by
  have hc : multerCheck req.mimetype req.size = .rejectedType := by
    simp [multerCheck, h]
  unfold uploadPdf
  rw [hc]

/-- C4 witness: a `text/plain` upload against a one-row registry leaves the
state untouched and returns the fileFilter message. -/
theorem nonPdf_rejected_no_side_effects_witness :
    (("text/plain" : String) ≠ "application/pdf") ∧
    uploadPdf (fun k => String.append "https://blob.example/" k)
        ⟨"notes.txt", "text/plain", 10⟩ 7
        ⟨[⟨"a-1.pdf", "https://blob.example/a", 1⟩], ["a-1.pdf"]⟩ =
      (⟨[⟨"a-1.pdf", "https://blob.example/a", 1⟩], ["a-1.pdf"]⟩,
       ⟨400, false, some "Only PDF files are allowed!", none, none, none, none⟩) :=
  ⟨by decide,
   nonPdf_rejected_no_side_effects (fun k => String.append "https://blob.example/" k)
     ⟨"notes.txt", "text/plain", 10⟩ 7
     ⟨[⟨"a-1.pdf", "https://blob.example/a", 1⟩], ["a-1.pdf"]⟩ (by decide)⟩

/-- C5: a PDF of exactly 50·1024·1024 bytes passes the size check and the
upload succeeds, while one byte more is rejected with the "File too large"
error and leaves the state unchanged. -/
theorem size_ceiling_boundary (putUrl : String → String) (req big : UploadRequest)
    (now : Nat) (st : ServerState)
    (hm : req.mimetype = "application/pdf") (hs : req.size = 50 * 1024 * 1024)
    (hm' : big.mimetype = "application/pdf") (hs' : big.size = 50 * 1024 * 1024 + 1) :
    (uploadPdf putUrl req now st).2.status = 200 ∧
    (uploadPdf putUrl req now st).2.success = true ∧
    uploadPdf putUrl big now st =
      (st, ⟨400, false, some "File too large", none, none, none, none⟩) := by
  have hacc : multerCheck req.mimetype req.size = .accepted := by
    rw [hm, hs]; decide
  have hrej : multerCheck big.mimetype big.size = .rejectedSize := by
    rw [hm', hs']; decide
  refine ⟨?_, ?_, ?_⟩
  · unfold uploadPdf
    rw [hacc]
  · unfold uploadPdf
    rw [hacc]
  · unfold uploadPdf
    rw [hrej]

/-- C5 witness at the two boundary sizes, on an empty registry. -/
theorem size_ceiling_boundary_witness :
    ((⟨"big.pdf", "application/pdf", 50 * 1024 * 1024⟩ : UploadRequest).mimetype = "application/pdf") ∧
    ((⟨"big.pdf", "application/pdf", 50 * 1024 * 1024⟩ : UploadRequest).size = 50 * 1024 * 1024) ∧
    ((uploadPdf (fun k => String.append "https://blob.example/" k)
        ⟨"big.pdf", "application/pdf", 50 * 1024 * 1024⟩ 7 ⟨[], []⟩).2.status = 200 ∧
     (uploadPdf (fun k => String.append "https://blob.example/" k)
        ⟨"big.pdf", "application/pdf", 50 * 1024 * 1024⟩ 7 ⟨[], []⟩).2.success = true ∧
     uploadPdf (fun k => String.append "https://blob.example/" k)
        ⟨"big.pdf", "application/pdf", 50 * 1024 * 1024 + 1⟩ 7 ⟨[], []⟩ =
       (⟨[], []⟩, ⟨400, false, some "File too large", none, none, none, none⟩)) :=
  ⟨rfl, rfl,
   size_ceiling_boundary (fun k => String.append "https://blob.example/" k)
     ⟨"big.pdf", "application/pdf", 50 * 1024 * 1024⟩
     ⟨"big.pdf", "application/pdf", 50 * 1024 * 1024 + 1⟩ 7 ⟨[], []⟩
     rfl rfl rfl rfl⟩

/-- C6: the history handler returns at most 50 items and each item's
`uploaded_at` is at least the next item's (descending order). -/
theorem getHistory_bounded_and_ordered (db : Db) :
    (getHistory db).length ≤ 50 ∧
    (getHistory db).Chain' (fun a b => b.uploaded_at ≤ a.uploaded_at) := by
  constructor
  · simp [getHistory, sqlSelectHistory]
  · have hp : (sqlSelectHistory db).Pairwise (fun a b => b.uploaded_at ≤ a.uploaded_at) :=
      List.Pairwise.sublist (List.take_sublist 50 _) (pairwise_orderByUploadedAtDesc db)
    have hm : (getHistory db).Pairwise (fun a b => b.uploaded_at ≤ a.uploaded_at) := by
      refine List.Pairwise.map _ ?_ hp
      intro a b hab
      exact hab
    exact List.Pairwise.chain' hm

/-- C7: the derived identifier is the sanitized base name — every character
in the alphanumeric-and-hyphen set, truncated to at most 50 characters —
followed by a hyphen, the timestamp token, and the original extension. -/
theorem derived_identifier_sanitized (originalname : String) (now : Nat) :
    (∀ c ∈ (safeName (pathParseName originalname)).toList, c.isAlphanum = true ∨ c = '-') ∧
    (safeName (pathParseName originalname)).length ≤ 50 ∧
    derivedFilename originalname now =
      safeName (pathParseName originalname) ++ "-" ++ toString now ++ pathExtname originalname := by
  refine ⟨?_, ?_, rfl⟩
  · intro c hc
    have hc' : c ∈ (pathParseName originalname).toList.map sanitizeChar :=
      List.mem_of_mem_take (by simpa [safeName, String.toList] using hc)
    rcases List.mem_map.mp hc' with ⟨a, _, rfl⟩
    by_cases h : a.isAlphanum
    · exact Or.inl (by simp [sanitizeChar, h])
    · exact Or.inr (by simp [sanitizeChar, h])
  · show (((pathParseName originalname).toList.map sanitizeChar).take 50).length ≤ 50
    exact List.length_take_le _ _

/-- C8 counterexample: at a 3000×3000 viewport, the claim's height-first
clamped formula instantiated with the margins (0.9 width, 0.8 height),
ratio 0.707 and minimums (400, 500) of `Flipbook.jsx` gives (1696, 2400),
while that component's `calculateDimensions` — whose width is capped at
800 before the height is derived — gives (800, 1131). -/
theorem viewer_geometry_claim_counterexample :
    specGeometryHeightFirstClamped (9/10) (8/10) (707/1000) 400 500 3000 3000 ≠
      FlipbookJsx.calculateDimensions 3000 3000 := by
  norm_num [specGeometryHeightFirstClamped, FlipbookJsx.calculateDimensions, min_def]

/-- C8 amended: the fullscreen computations (`part_000`'s
`updateDimensions`, `part_001`'s fullscreen branch) follow the height-first
formula — `height = H * marginFactor`, `width = height * r`, recomputed
from the width constraint when `width > W * marginFactor` — but apply no
minimum clamps; the windowed computations (`Flipbook.jsx`, `part_001`'s
desktop and mobile branches) instead cap `width` at `min(W * marginFactor,
cap)`, derive `height = width / r`, recompute from the height constraint
when `height > H * marginFactor'`, and clamp both to component-specific
minimums. -/
theorem viewer_geometry_componentwise :
    (∀ vw vh : ℚ, Part000.updateDimensions vw vh =
        specGeometryHeightFirst (98/100) (98/100) (707/1000) vw vh) ∧
    (∀ m : Bool, ∀ vw vh : ℚ, Part001.calculateDimensions true m vw vh =
        specGeometryHeightFirst (95/100) (9/10) Part001.aspectRatioFullscreen vw vh) ∧
    (∀ vw vh : ℚ, FlipbookJsx.calculateDimensions vw vh =
        specGeometryWidthFirstCapped (9/10) (8/10) (707/1000) 800 400 500 vw vh) ∧
    (∀ vw vh : ℚ, Part001.calculateDimensions false false vw vh =
        specGeometryWidthFirstCapped (85/100) (7/10) (707/1000) 800 400 560 vw vh) ∧
    (∀ vw vh : ℚ, Part001.calculateDimensions false true vw vh =
        specGeometryWidthFirstCapped (92/100) (6/10) (707/1000) 500 280 396 vw vh) :=
  ⟨fun _ _ => rfl, fun _ _ _ => rfl, fun _ _ => rfl, fun _ _ => rfl, fun _ _ => rfl⟩

/-- C9: the geometry computations are deterministic — two calls with equal
viewport sizes and equal fullscreen/mobile flags return equal dimensions. -/
theorem viewer_geometry_deterministic
    (w1 h1 w2 h2 : ℚ) (fs1 fs2 mob1 mob2 : Bool)
    (hw : w1 = w2) (hh : h1 = h2) (hfs : fs1 = fs2) (hmob : mob1 = mob2) :
    FlipbookJsx.calculateDimensions w1 h1 = FlipbookJsx.calculateDimensions w2 h2 ∧
    Part001.calculateDimensions fs1 mob1 w1 h1 =
      Part001.calculateDimensions fs2 mob2 w2 h2 := by
  subst hw
  subst hh
  subst hfs
  subst hmob
  exact ⟨rfl, rfl⟩

/-- C9 witness at a 1000×800 desktop viewport. -/
theorem viewer_geometry_deterministic_witness :
    ((1000 : ℚ) = 1000) ∧
    (FlipbookJsx.calculateDimensions 1000 800 = FlipbookJsx.calculateDimensions 1000 800 ∧
     Part001.calculateDimensions false false 1000 800 =
       Part001.calculateDimensions false false 1000 800) :=
  ⟨rfl,
   viewer_geometry_deterministic 1000 800 1000 800 false false false false rfl rfl rfl rfl⟩

/-- C10: the `Flipbook.jsx` geometry always returns integer dimensions of
at least 400×500; and because the two clamps act independently, the
returned pair can break the 0.707 ratio — at a 100×100 viewport it returns
(400, 500) with 400 ≠ 500 · 0.707. -/
theorem flipbook_min_dimensions :
    (∀ w h : ℚ, 400 ≤ (FlipbookJsx.calculateDimensions w h).1 ∧
        500 ≤ (FlipbookJsx.calculateDimensions w h).2) ∧
    ((FlipbookJsx.calculateDimensions 100 100).1 : ℚ) ≠
      ((FlipbookJsx.calculateDimensions 100 100).2 : ℚ) * (707 / 1000) := by
  constructor
  · intro w h
    constructor
    · simp only [FlipbookJsx.calculateDimensions]
      exact le_floor_clampMin 400 400 _ (by norm_num)
    · simp only [FlipbookJsx.calculateDimensions]
      exact le_floor_clampMin 500 500 _ (by norm_num)
  · norm_num [FlipbookJsx.calculateDimensions, min_def]
